import Mathlib

/-!
Shallow embedding of the bus / slot core of this repository: the VME bus
controller (vme.cpp) and the APF cartridge slot (devices/bus/apf/slot.cpp).
Machine integers are modelled as Nat with explicit masking where the source
truncates; fallible paths return Except, and fatalerror is an error value.
-/

namespace Mame

/-- VME address modifier. The source dispatches only on whether the modifier
is one of the three supported single-cycle modifiers A16_SC, A24_SC, A32_SC;
every other enumerator of the C enum falls to the default case of the switch,
so the rest of the enum is modelled by one constructor carrying the numeric
code of the modifier. -/
inductive vme_amod_t where
  | A16_SC : vme_amod_t
  | A24_SC : vme_amod_t
  | A32_SC : vme_amod_t
  | other : Nat → vme_amod_t
deriving DecidableEq

/-- One handler installation performed on an address space by
install_readwrite_handler: the address range, the handler pair and the
unitmask passed down. H is the delegate type of the overload. -/
structure InstallRecord (H : Type) where
  startAddr : Nat
  endAddr : Nat
  rhandler : H
  whandler : H
  mask : Nat
deriving DecidableEq

/-- Model of address_space::install_readwrite_handler: records the
installation on the space. -/
def install_readwrite_handler {H : Type} (space : List (InstallRecord H))
    (startAddr endAddr : Nat) (rhandler whandler : H) (mask : Nat) :
    List (InstallRecord H) :=
  space ++ [⟨startAddr, endAddr, rhandler, whandler, mask⟩]

/-- vme_device::install_device (vme.cpp). The five overloads, for the D8, D16
and D32 delegate flavours, have identical bodies up to the delegate types and
the D8 / D16 / D32 tag in the fatalerror message, so they are modelled by one
function polymorphic in the handler type H and taking the message tag as the
label argument. The switch on the address modifier accepts only A16_SC,
A24_SC and A32_SC and otherwise raises fatalerror; the switch on m_prgwidth
installs the pair with the mask truncated to 16 bits at width 16, to 24 bits
at width 24, unchanged at width 32, and raises fatalerror at any other
width. -/
def vme_device.install_device {H : Type} (label : String) (m_prgwidth : Nat)
    (m_prgspace : List (InstallRecord H)) (amod : vme_amod_t)
    (startAddr endAddr : Nat) (rhandler whandler : H) (mask : Nat) :
    Except String (List (InstallRecord H)) :=
  match amod with
  | .A16_SC | .A24_SC | .A32_SC =>
    match m_prgwidth with
    | 16 => Except.ok (install_readwrite_handler m_prgspace startAddr endAddr
        rhandler whandler (Nat.land mask 0x0000ffff))
    | 24 => Except.ok (install_readwrite_handler m_prgspace startAddr endAddr
        rhandler whandler (Nat.land mask 0x00ffffff))
    | 32 => Except.ok (install_readwrite_handler m_prgspace startAddr endAddr
        rhandler whandler mask)
    | w => Except.error (label ++ ": Bus width " ++ toString w ++ " not supported")
  | .other am =>
    Except.error (label ++ ": Non supported Address modifier: AM" ++ toString am)

/-- Data width of the a32 address_space_config declared in the vme_device
constructor (ENDIANNESS_BIG, data width 32). -/
def vme_a32_data_width : Nat := 32

/-- The slice of a cpu_device that vme_device::device_start consults: the
data width of its program space. -/
structure cpu_device_model where
  prg_data_width : Nat
deriving DecidableEq

/-- Configuration of a vme_device at start time: whether it allocates its own
spaces, and the cpu_device (if any) that the owner exposes under the tag
m_cputag. -/
structure vme_config where
  m_allocspaces : Bool
  owner_cpu : Option cpu_device_model
deriving DecidableEq

/-- Outcome of vme_device::device_start: started with the resolved program
width, or the crash produced by dereferencing a null m_maincpu, or a
fatalerror with a message. No branch of device_start produces the fatal
outcome; the constructor exists so that statements can distinguish a crash
from a descriptive fatal error. -/
inductive start_outcome where
  | started : Nat → start_outcome
  | null_dereference : start_outcome
  | fatal : String → start_outcome
deriving DecidableEq

/-- vme_device::use_owner_spaces (vme.cpp): clears m_allocspaces so that
start borrows the owner spaces instead of allocating. -/
def vme_device.use_owner_spaces (cfg : vme_config) : vme_config :=
  { cfg with m_allocspaces := false }

/-- vme_device::device_start (vme.cpp): with m_allocspaces it takes its own
a32 program space and that space data width; otherwise it looks up the owner
subdevice named by m_cputag and takes that cpu program space and width. The
lookup result is never checked: subdevice returns null when no such
cpu_device exists, and the code dereferences it at once, modelled as the
null_dereference outcome. -/
def vme_device.device_start (cfg : vme_config) : start_outcome :=
  if cfg.m_allocspaces then
    start_outcome.started vme_a32_data_width
  else
    match cfg.owner_cpu with
    | some cpu => start_outcome.started cpu.prg_data_width
    | none => start_outcome.null_dereference

/-- vme_slot_device::read8 (vme.cpp): the forwarding to the inserted card is
commented out in the source, so every read returns the initial value 0x00 of
the result variable, whether or not a card is present. -/
def vme_slot_device.read8 (offset : Nat) : Nat := 0x00

/-- vme_slot_device::write8 (vme.cpp): the forwarding to the inserted card is
commented out in the source, so the write has no effect at all. -/
def vme_slot_device.write8 (offset data : Nat) : Unit := ()

/-- Variant id APF_STD. Modelled from the spec: the enum lives in the APF
slot header, which is not under src; the spec names APF_STD the default
variant and the tolerant name lookup returns 0, so APF_STD has id 0. -/
def APF_STD : Nat := 0

/-- Variant id APF_BASIC, the extended variant. Modelled from the spec: the
enum lives in the APF slot header, not under src; the three variants are
distinct, listed after APF_STD in declaration order. -/
def APF_BASIC : Nat := 1

/-- Variant id APF_SPACEDST, the variant requiring 0x400 bytes of extra ram.
Modelled from the spec: the enum lives in the APF slot header, not under
src; distinct from the other two ids. -/
def APF_SPACEDST : Nat := 2

/-- The static name-to-id table slot_list of slot.cpp, as pairs of pcb_id
and slot_option. -/
def slot_list : List (Nat × String) :=
  [(APF_STD, "std"), (APF_BASIC, "basic"), (APF_SPACEDST, "spacedst")]

/-- The loop of apf_get_pcb_id over the table: the first entry whose
slot_option equals the name gives its pcb_id, otherwise 0. -/
def lookup_pcb_id : List (Nat × String) → String → Nat
  | [], _ => 0
  | elem :: rest, slot => if elem.2 = slot then elem.1 else lookup_pcb_id rest slot

/-- apf_get_pcb_id (slot.cpp): maps a slot or feature name through slot_list,
falling back to 0 when no entry matches. -/
def apf_get_pcb_id (slot : String) : Nat := lookup_pcb_id slot_list slot

/-- The loop of apf_get_slot over the table: the first entry whose pcb_id
equals the type gives its slot_option, otherwise the string std. -/
def lookup_slot_option : List (Nat × String) → Nat → String
  | [], _ => "std"
  | elem :: rest, t => if elem.1 = t then elem.2 else lookup_slot_option rest t

/-- apf_get_slot (slot.cpp): maps a variant id back to its slot option name,
falling back to std. -/
def apf_get_slot (t : Nat) : String := lookup_slot_option slot_list t

/-- Backing-store state of device_apf_cart_interface: m_rom is the allocated
region (none while the pointer is still null), m_rom_size the recorded size,
m_ram the ram vector. -/
structure apf_cart where
  m_rom : Option (List Nat)
  m_rom_size : Nat
  m_ram : List Nat
deriving DecidableEq

/-- device_apf_cart_interface::rom_alloc (slot.cpp): allocates a fresh region
and records the size only while m_rom is still null; any later call changes
nothing. -/
def device_apf_cart_interface.rom_alloc (cart : apf_cart) (size : Nat) : apf_cart :=
  match cart.m_rom with
  | none => { cart with m_rom := some (List.replicate size 0), m_rom_size := size }
  | some _ => cart

/-- Model of std::vector::resize on the ram vector: keeps a prefix when
shrinking and pads with value-initialized zero elements when growing. -/
def vector_resize (v : List Nat) (size : Nat) : List Nat :=
  if size ≤ v.length then v.take size
  else v ++ List.replicate (size - v.length) 0

/-- device_apf_cart_interface::ram_alloc (slot.cpp): resizes the ram vector
to the requested size unconditionally, with no allocated-once guard. -/
def device_apf_cart_interface.ram_alloc (cart : apf_cart) (size : Nat) : apf_cart :=
  { cart with m_ram := vector_resize cart.m_ram size }

/-- Modelled from the spec: the card-level rom read is implemented by the
cart devices (bus/apf/rom.cpp), which are not under src. A read on an
unpopulated card, or at an offset outside the recorded rom size, returns the
open-bus sentinel 0xff; otherwise the byte of the region at the offset. -/
def device_apf_cart_interface.read_rom (cart : apf_cart) (offset : Nat) : Nat :=
  match cart.m_rom with
  | none => 0xff
  | some region => if offset < cart.m_rom_size then region.getD offset 0xff else 0xff

/-- Modelled from the spec: the card-level extra rom read (bus/apf/rom.cpp is
not under src) serves the window above 0x2000 of the region; an unpopulated
card or an offset outside the region reads the open-bus sentinel 0xff. -/
def device_apf_cart_interface.extra_rom (cart : apf_cart) (offset : Nat) : Nat :=
  match cart.m_rom with
  | none => 0xff
  | some region =>
    if 0x2000 + offset < cart.m_rom_size then region.getD (0x2000 + offset) 0xff else 0xff

/-- Modelled from the spec: the card-level ram read (not under src); an
offset outside the ram vector reads the open-bus sentinel 0xff. -/
def device_apf_cart_interface.read_ram (cart : apf_cart) (offset : Nat) : Nat :=
  if offset < cart.m_ram.length then cart.m_ram.getD offset 0 else 0xff

/-- Modelled from the spec: the card-level ram write (not under src); a write
in range updates the ram byte, a write out of range is discarded. -/
def device_apf_cart_interface.write_ram (cart : apf_cart) (offset data : Nat) : apf_cart :=
  if offset < cart.m_ram.length then { cart with m_ram := cart.m_ram.set offset data }
  else cart

/-- State of apf_cart_slot_device: the variant tag m_type and the card
resolved at device_start, none when no card device is inserted. -/
structure apf_cart_slot where
  m_type : Nat
  m_cart : Option apf_cart
deriving DecidableEq

/-- apf_cart_slot_device::read_rom (slot.cpp): forwards to the card when one
is present, else returns 0xff. -/
def apf_cart_slot_device.read_rom (slot : apf_cart_slot) (offset : Nat) : Nat :=
  match slot.m_cart with
  | some cart => device_apf_cart_interface.read_rom cart offset
  | none => 0xff

/-- apf_cart_slot_device::extra_rom (slot.cpp): forwards to the card when one
is present, else returns 0xff. -/
def apf_cart_slot_device.extra_rom (slot : apf_cart_slot) (offset : Nat) : Nat :=
  match slot.m_cart with
  | some cart => device_apf_cart_interface.extra_rom cart offset
  | none => 0xff

/-- apf_cart_slot_device::read_ram (slot.cpp): forwards to the card when one
is present, else returns 0xff. -/
def apf_cart_slot_device.read_ram (slot : apf_cart_slot) (offset : Nat) : Nat :=
  match slot.m_cart with
  | some cart => device_apf_cart_interface.read_ram cart offset
  | none => 0xff

/-- apf_cart_slot_device::write_ram (slot.cpp): forwards to the card when one
is present, else the write is silently discarded. -/
def apf_cart_slot_device.write_ram (slot : apf_cart_slot) (offset data : Nat) :
    apf_cart_slot :=
  match slot.m_cart with
  | some cart =>
    { slot with m_cart := some (device_apf_cart_interface.write_ram cart offset data) }
  | none => slot

/-- Inputs of apf_cart_slot_device::call_load: whether the image comes
through the software list, the raw file bytes, the software rom and ram
regions, and the slot feature of the software entry. -/
structure apf_image where
  softlist : Bool
  file_bytes : List Nat
  rom_region : Option (List Nat)
  ram_region : Option (List Nat)
  slot_feature : Option String
deriving DecidableEq

/-- The image size as call_load computes it: the file length on the raw
path, the length of the software rom region on the softlist path. -/
def apf_image.load_size (img : apf_image) : Nat :=
  if !img.softlist then img.file_bytes.length else (img.rom_region.getD []).length

/-- The bytes call_load copies to the rom base: an fread of the file on the
raw path, a memcpy from the software rom region on the softlist path. -/
def apf_image.load_bytes (img : apf_image) : List Nat :=
  if !img.softlist then img.file_bytes else img.rom_region.getD []

/-- Writing bytes at get_rom_base, where both fread and memcpy land: the
prefix of the region is overwritten. -/
def write_rom_base (cart : apf_cart) (data : List Nat) : apf_cart :=
  match cart.m_rom with
  | none => cart
  | some region => { cart with m_rom := some (data ++ region.drop data.length) }

/-- The typed image errors call_load can report. -/
inductive image_error where
  | invalidLength : image_error
deriving DecidableEq

/-- apf_cart_slot_device::call_load (slot.cpp). A null m_cart returns
success at once with nothing done. Otherwise sizes above 0x3800 are rejected
with the invalid-length error before any allocation; then the rom is
allocated and the image copied in; on the raw path the variant is set by the
size heuristic, a size of exactly 0x1800 also allocating 0x400 bytes of ram;
on the softlist path the slot feature, when present, is mapped through the
table, and ram is allocated from the software ram region when present. -/
def apf_cart_slot_device.call_load (slot : apf_cart_slot) (img : apf_image) :
    Except image_error apf_cart_slot :=
  match slot.m_cart with
  | none => Except.ok slot
  | some cart0 =>
    let size := img.load_size
    if size > 0x3800 then Except.error image_error.invalidLength
    else
      let cart1 := device_apf_cart_interface.rom_alloc cart0 size
      let cart2 := write_rom_base cart1 (img.load_bytes.take size)
      if !img.softlist then
        let st :=
          if size = 0x1800 then
            (APF_SPACEDST, device_apf_cart_interface.ram_alloc cart2 0x400)
          else
            (APF_STD, cart2)
        let t1 := if size > 0x2000 then APF_BASIC else st.1
        Except.ok { m_type := t1, m_cart := some st.2 }
      else
        let t0 :=
          match img.slot_feature with
          | some pcb_name => apf_get_pcb_id pcb_name
          | none => slot.m_type
        let cart3 :=
          match img.ram_region with
          | some r => device_apf_cart_interface.ram_alloc cart2 r.length
          | none => cart2
        Except.ok { m_type := t0, m_cart := some cart3 }

/-- apf_cart_slot_device::get_default_card_software (slot.cpp), the branch
with an image file present: the pure size heuristic with no allocation and
no side effect, returning the slot option string of the chosen type. -/
def apf_cart_slot_device.get_default_card_software (size : Nat) : String :=
  let t0 := APF_STD
  let t1 := if size = 0x1800 then APF_SPACEDST else t0
  let t2 := if size > 0x2000 then APF_BASIC else t1
  apf_get_slot t2

/-! Helper lemmas shared by the claim theorems. -/

/-- Resizing a ram vector always yields exactly the requested length. -/
theorem vector_resize_length (v : List Nat) (size : Nat) :
    (vector_resize v size).length = size := by
  unfold vector_resize
  by_cases h : size ≤ v.length
  · simp [h, Nat.min_eq_left h]
  · simp [h]
    omega

/-! Claim theorems. -/

/-- C6: the claim says a missing delegated host cpu is a fatal configuration
error with a descriptive message; evaluating device_start at the failing
configuration (owner spaces requested, no cpu under the configured tag)
shows the code instead dereferences the null cpu pointer: the outcome is the
crash, and not a fatal error with any message. -/
theorem C6_missing_cpu_crashes :
    vme_device.device_start (vme_device.use_owner_spaces ⟨true, none⟩) =
      start_outcome.null_dereference ∧
    ∀ msg, vme_device.device_start (vme_device.use_owner_spaces ⟨true, none⟩) ≠
      start_outcome.fatal msg :=
  ⟨rfl, fun _ h => start_outcome.noConfusion h⟩

/-- C7: rom_alloc is idempotent: on a card whose rom region is already
allocated, a further call with any size is a no-op, leaving the region, the
recorded rom size and the stored bytes unchanged. -/
theorem C7_rom_alloc_idempotent (cart : apf_cart) (region : List Nat) (size : Nat)
    (h : cart.m_rom = some region) :
    device_apf_cart_interface.rom_alloc cart size = cart ∧
    (device_apf_cart_interface.rom_alloc cart size).m_rom = some region ∧
    (device_apf_cart_interface.rom_alloc cart size).m_rom_size = cart.m_rom_size := by
  have hal : device_apf_cart_interface.rom_alloc cart size = cart := by
    simp [device_apf_cart_interface.rom_alloc, h]
  exact ⟨hal, by rw [hal, h], by rw [hal]⟩

/-- Witness for C7 at a concrete allocated card. -/
theorem C7_witness :
    device_apf_cart_interface.rom_alloc ⟨some [1, 2], 2, []⟩ 7 = ⟨some [1, 2], 2, []⟩ ∧
    (device_apf_cart_interface.rom_alloc ⟨some [1, 2], 2, []⟩ 7).m_rom = some [1, 2] ∧
    (device_apf_cart_interface.rom_alloc ⟨some [1, 2], 2, []⟩ 7).m_rom_size =
      (⟨some [1, 2], 2, []⟩ : apf_cart).m_rom_size :=
  C7_rom_alloc_idempotent ⟨some [1, 2], 2, []⟩ [1, 2] 7 rfl

/-- C9: with no card device resolved, call_load returns the empty error
condition (success) and has no side effect: the slot state, its variant tag
included, is returned unchanged. -/
theorem C9_no_card_load_noop (slot : apf_cart_slot) (img : apf_image)
    (h : slot.m_cart = none) :
    apf_cart_slot_device.call_load slot img = Except.ok slot := by
  unfold apf_cart_slot_device.call_load
  split
  · rfl
  · rename_i cart hc
    rw [h] at hc
    exact Option.noConfusion hc

/-- Witness for C9 at a concrete cardless slot and image. -/
theorem C9_witness :
    apf_cart_slot_device.call_load ⟨3, none⟩ ⟨false, [9], none, none, none⟩ =
      Except.ok ⟨3, none⟩ :=
  C9_no_card_load_noop ⟨3, none⟩ ⟨false, [9], none, none, none⟩ rfl

/-- C10: ram_alloc has no allocated-once guard: every call resizes the ram
vector to exactly the requested size, so calling it with s1 and then s2
leaves the ram length equal to s2 (and the first call left it equal to
s1). -/
theorem C10_ram_alloc_resizes (cart : apf_cart) (s1 s2 : Nat) :
    (device_apf_cart_interface.ram_alloc cart s1).m_ram.length = s1 ∧
    (device_apf_cart_interface.ram_alloc
      (device_apf_cart_interface.ram_alloc cart s1) s2).m_ram.length = s2 :=
  ⟨vector_resize_length _ _, vector_resize_length _ _⟩

/-- C2 as stated is false on the code: the VME slot read8, which the claim
includes among the slot-level reads, returns 0x00 at offset 0 and not the
open-bus sentinel 0xff (the forwarding to the card is commented out and the
result variable is initialized to 0x00). -/
theorem C2_counterexample : vme_slot_device.read8 0 ≠ 0xff := by decide

/-- C2 (amended): through a slot with no inserted card, every APF slot read
(read_rom, extra_rom, read_ram) returns the open-bus sentinel 0xff and the
APF slot write is silently discarded, while the VME slot read8 returns 0x00
for every offset and the VME slot write8 has no effect. -/
theorem C2_amended_open_bus (slot : apf_cart_slot) (offset data : Nat)
    (h : slot.m_cart = none) :
    apf_cart_slot_device.read_rom slot offset = 0xff ∧
    apf_cart_slot_device.extra_rom slot offset = 0xff ∧
    apf_cart_slot_device.read_ram slot offset = 0xff ∧
    apf_cart_slot_device.write_ram slot offset data = slot ∧
    vme_slot_device.read8 offset = 0x00 ∧
    vme_slot_device.write8 offset data = () := by
  refine ⟨?_, ?_, ?_, ?_, rfl, rfl⟩ <;>
    simp [apf_cart_slot_device.read_rom, apf_cart_slot_device.extra_rom,
      apf_cart_slot_device.read_ram, apf_cart_slot_device.write_ram, h]

/-- Witness for the amended C2 at a concrete empty slot, offset and data. -/
theorem C2_witness :
    apf_cart_slot_device.read_rom ⟨0, none⟩ 5 = 0xff ∧
    apf_cart_slot_device.extra_rom ⟨0, none⟩ 5 = 0xff ∧
    apf_cart_slot_device.read_ram ⟨0, none⟩ 5 = 0xff ∧
    apf_cart_slot_device.write_ram ⟨0, none⟩ 5 7 = ⟨0, none⟩ ∧
    vme_slot_device.read8 5 = 0x00 ∧
    vme_slot_device.write8 5 7 = () :=
  C2_amended_open_bus ⟨0, none⟩ 5 7 rfl

/-- C1: for every supported address modifier among A16_SC, A24_SC and A32_SC
and every configured bus width among 16, 24 and 32, install_device installs
the given handler pair into the authoritative address space over the range
from startAddr to endAddr, with the enable mask truncated to the natural
width of the space: masked with 0x0000ffff at width 16, with 0x00ffffff at
width 24, unchanged at width 32. The statement covers every overload, which
share H and the label. -/
theorem C1_install_device_supported {H : Type} (label : String) (w : Nat)
    (space : List (InstallRecord H)) (amod : vme_amod_t)
    (s e : Nat) (rh wh : H) (mask : Nat)
    (hamod : amod = vme_amod_t.A16_SC ∨ amod = vme_amod_t.A24_SC ∨
      amod = vme_amod_t.A32_SC)
    (hw : w = 16 ∨ w = 24 ∨ w = 32) :
    vme_device.install_device label w space amod s e rh wh mask =
      Except.ok (space ++ [⟨s, e, rh, wh,
        if w = 16 then Nat.land mask 0x0000ffff
        else if w = 24 then Nat.land mask 0x00ffffff
        else mask⟩]) := by
  rcases hamod with h | h | h <;> subst h <;>
    rcases hw with h | h | h <;> subst h <;> rfl

/-- Witness for C1 at modifier A16_SC, width 16 and a concrete all-ones
mask. -/
theorem C1_witness :
    vme_device.install_device (H := Nat) ("VME D8") 16 [] vme_amod_t.A16_SC
        0 10 1 2 0xffffffff =
      Except.ok ([] ++ [⟨0, 10, 1, 2,
        if (16 : Nat) = 16 then Nat.land 0xffffffff 0x0000ffff
        else if (16 : Nat) = 24 then Nat.land 0xffffffff 0x00ffffff
        else 0xffffffff⟩]) :=
  C1_install_device_supported ("VME D8") 16 [] vme_amod_t.A16_SC
    0 10 1 2 0xffffffff (Or.inl rfl) (Or.inl rfl)

/-- C3: every address modifier outside the supported set is a fatal
configuration error for every overload of install_device: the call halts
with the descriptive non-supported-modifier message before any installation,
so no ok address space with the handler can result at any width. -/
theorem C3_install_device_unsupported {H : Type} (label : String) (w : Nat)
    (space : List (InstallRecord H)) (amod : vme_amod_t)
    (s e : Nat) (rh wh : H) (mask : Nat)
    (h1 : amod ≠ vme_amod_t.A16_SC) (h2 : amod ≠ vme_amod_t.A24_SC)
    (h3 : amod ≠ vme_amod_t.A32_SC) :
    (∃ am : Nat, vme_device.install_device label w space amod s e rh wh mask =
      Except.error (label ++ ": Non supported Address modifier: AM" ++ toString am)) ∧
    ∀ sp, vme_device.install_device label w space amod s e rh wh mask ≠
      Except.ok sp := by
  cases amod with
  | A16_SC => exact absurd rfl h1
  | A24_SC => exact absurd rfl h2
  | A32_SC => exact absurd rfl h3
  | other am => exact ⟨⟨am, rfl⟩, fun _ h => Except.noConfusion h⟩

/-- Witness for C3 at a concrete unsupported modifier. -/
theorem C3_witness :
    (∃ am : Nat, vme_device.install_device (H := Nat) ("VME D16") 16 []
        (vme_amod_t.other 5) 0 10 1 2 0 =
      Except.error ("VME D16" ++ ": Non supported Address modifier: AM" ++ toString am)) ∧
    ∀ sp, vme_device.install_device (H := Nat) ("VME D16") 16 []
        (vme_amod_t.other 5) 0 10 1 2 0 ≠ Except.ok sp :=
  C3_install_device_unsupported ("VME D16") 16 [] (vme_amod_t.other 5) 0 10 1 2 0
    (by decide) (by decide) (by decide)

/-- C4: an image whose size exceeds the maximum 0x3800 bytes makes call_load
return the invalid-length error before any allocation, so a fresh card stays
unpopulated and every slot read at any offset still returns the open-bus
sentinel 0xff. -/
theorem C4_oversized_rejected (t : Nat) (cart : apf_cart) (img : apf_image)
    (offset : Nat) (hrom : cart.m_rom = none) (hram : cart.m_ram = [])
    (hsize : img.load_size > 0x3800) :
    apf_cart_slot_device.call_load ⟨t, some cart⟩ img =
      Except.error image_error.invalidLength ∧
    apf_cart_slot_device.read_rom ⟨t, some cart⟩ offset = 0xff ∧
    apf_cart_slot_device.extra_rom ⟨t, some cart⟩ offset = 0xff ∧
    apf_cart_slot_device.read_ram ⟨t, some cart⟩ offset = 0xff := by
  refine ⟨?_, ?_, ?_, ?_⟩
  · simp [apf_cart_slot_device.call_load, hsize]
  · simp [apf_cart_slot_device.read_rom, device_apf_cart_interface.read_rom, hrom]
  · simp [apf_cart_slot_device.extra_rom, device_apf_cart_interface.extra_rom, hrom]
  · simp [apf_cart_slot_device.read_ram, device_apf_cart_interface.read_ram, hram]

/-- Witness for C4 at a raw image of 0x3801 bytes and a fresh card. -/
theorem C4_witness :
    apf_cart_slot_device.call_load ⟨0, some ⟨none, 0, []⟩⟩
        ⟨false, List.replicate 0x3801 0, none, none, none⟩ =
      Except.error image_error.invalidLength ∧
    apf_cart_slot_device.read_rom ⟨0, some ⟨none, 0, []⟩⟩ 5 = 0xff ∧
    apf_cart_slot_device.extra_rom ⟨0, some ⟨none, 0, []⟩⟩ 5 = 0xff ∧
    apf_cart_slot_device.read_ram ⟨0, some ⟨none, 0, []⟩⟩ 5 = 0xff :=
  C4_oversized_rejected 0 ⟨none, 0, []⟩ ⟨false, List.replicate 0x3801 0, none, none, none⟩
    5 rfl rfl (by rw [apf_image.load_size]; norm_num)

/-- C8: a slot feature name outside the static table maps to id 0, which is
the default variant APF_STD, and a softlist load carrying such a name still
completes, with the default variant selected. -/
theorem C8_unknown_name_default (name : String) (t : Nat) (cart : apf_cart)
    (img : apf_image)
    (h1 : name ≠ "std") (h2 : name ≠ "basic") (h3 : name ≠ "spacedst")
    (hsoft : img.softlist = true) (hfeat : img.slot_feature = some name)
    (hsize : img.load_size ≤ 0x3800) :
    apf_get_pcb_id name = APF_STD ∧
    ∃ c2, apf_cart_slot_device.call_load ⟨t, some cart⟩ img =
      Except.ok ⟨APF_STD, some c2⟩ := by
  have hgt : ¬ img.load_size > 0x3800 := Nat.not_lt.mpr hsize
  have hid : apf_get_pcb_id name = APF_STD := by
    simp [apf_get_pcb_id, lookup_pcb_id, slot_list, APF_STD,
      Ne.symm h1, Ne.symm h2, Ne.symm h3]
  refine ⟨hid, ?_⟩
  refine ⟨(match img.ram_region with
    | some r => device_apf_cart_interface.ram_alloc
        (write_rom_base (device_apf_cart_interface.rom_alloc cart img.load_size)
          (img.load_bytes.take img.load_size)) r.length
    | none => write_rom_base (device_apf_cart_interface.rom_alloc cart img.load_size)
        (img.load_bytes.take img.load_size)), ?_⟩
  simp [apf_cart_slot_device.call_load, hgt, hsoft, hfeat, hid]

/-- Witness for C8 at a concrete unknown feature name. -/
theorem C8_witness :
    apf_get_pcb_id ("xyz") = APF_STD ∧
    ∃ c2, apf_cart_slot_device.call_load ⟨0, some ⟨none, 0, []⟩⟩
        ⟨true, [], some [], none, some "xyz"⟩ =
      Except.ok ⟨APF_STD, some c2⟩ :=
  C8_unknown_name_default ("xyz") 0 ⟨none, 0, []⟩
    ⟨true, [], some [], none, some "xyz"⟩
    (by decide) (by decide) (by decide) rfl rfl
    (by simp [apf_image.load_size])

/-- The raw (non softlist) load path in closed form: the variant chosen by
call_load and the resulting card as functions of the image size. -/
theorem call_load_raw (t : Nat) (cart : apf_cart) (img : apf_image)
    (hsoft : img.softlist = false) (hsize : img.load_size ≤ 0x3800) :
    apf_cart_slot_device.call_load ⟨t, some cart⟩ img =
      Except.ok ⟨(if img.load_size > 0x2000 then APF_BASIC
          else if img.load_size = 0x1800 then APF_SPACEDST else APF_STD),
        some (if img.load_size = 0x1800
          then device_apf_cart_interface.ram_alloc
            (write_rom_base (device_apf_cart_interface.rom_alloc cart img.load_size)
              (img.load_bytes.take img.load_size)) 0x400
          else write_rom_base (device_apf_cart_interface.rom_alloc cart img.load_size)
            (img.load_bytes.take img.load_size))⟩ := by
  have hgt : ¬ img.load_size > 0x3800 := Nat.not_lt.mpr hsize
  by_cases h18 : img.load_size = 0x1800
  · have h20 : ¬ img.load_size > 0x2000 := by rw [h18]; decide
    simp [apf_cart_slot_device.call_load, hgt, hsoft, h18, h20]
  · by_cases h20 : img.load_size > 0x2000 <;>
      simp [apf_cart_slot_device.call_load, hgt, hsoft, h18, h20]

/-- The pure size heuristic in the same closed form. -/
theorem get_default_card_software_eq (size : Nat) :
    apf_cart_slot_device.get_default_card_software size =
      apf_get_slot (if size > 0x2000 then APF_BASIC
        else if size = 0x1800 then APF_SPACEDST else APF_STD) := by
  unfold apf_cart_slot_device.get_default_card_software
  by_cases h18 : size = 0x1800 <;> by_cases h20 : size > 0x2000 <;> simp [h18, h20]

/-- C5: on every accepted raw image size the pure heuristic query and the
load path select the same variant: exactly 0x1800 bytes gives APF_SPACEDST
with exactly 0x400 bytes of ram allocated, a size above 0x2000 gives
APF_BASIC, and any other size gives APF_STD. -/
theorem C5_heuristic_agreement (t : Nat) (cart : apf_cart) (img : apf_image)
    (hsoft : img.softlist = false) (hsize : img.load_size ≤ 0x3800) :
    ∃ slot2, apf_cart_slot_device.call_load ⟨t, some cart⟩ img = Except.ok slot2 ∧
      apf_get_slot slot2.m_type =
        apf_cart_slot_device.get_default_card_software img.load_size ∧
      (img.load_size = 0x1800 → slot2.m_type = APF_SPACEDST ∧
        ∃ c2, slot2.m_cart = some c2 ∧ c2.m_ram.length = 0x400) ∧
      (img.load_size > 0x2000 → slot2.m_type = APF_BASIC) ∧
      (img.load_size ≠ 0x1800 → ¬ img.load_size > 0x2000 →
        slot2.m_type = APF_STD) := by
  refine ⟨_, call_load_raw t cart img hsoft hsize, ?_, ?_, ?_, ?_⟩
  · rw [get_default_card_software_eq]
  · intro h18
    have h20 : ¬ img.load_size > 0x2000 := by rw [h18]; decide
    refine ⟨by simp [h18, h20], ?_⟩
    refine ⟨device_apf_cart_interface.ram_alloc
      (write_rom_base (device_apf_cart_interface.rom_alloc cart img.load_size)
        (img.load_bytes.take img.load_size)) 0x400, by simp [h18], ?_⟩
    simp [device_apf_cart_interface.ram_alloc, vector_resize_length]
  · intro h20
    simp [h20]
  · intro h18 h20
    simp [h18, h20]

/-- Witness for C5 at a raw image of exactly 0x1800 bytes. -/
theorem C5_witness :
    ∃ slot2, apf_cart_slot_device.call_load ⟨0, some ⟨none, 0, []⟩⟩
        ⟨false, List.replicate 0x1800 0, none, none, none⟩ = Except.ok slot2 ∧
      apf_get_slot slot2.m_type =
        apf_cart_slot_device.get_default_card_software
          (⟨false, List.replicate 0x1800 0, none, none, none⟩ : apf_image).load_size ∧
      ((⟨false, List.replicate 0x1800 0, none, none, none⟩ : apf_image).load_size = 0x1800 →
        slot2.m_type = APF_SPACEDST ∧
        ∃ c2, slot2.m_cart = some c2 ∧ c2.m_ram.length = 0x400) ∧
      ((⟨false, List.replicate 0x1800 0, none, none, none⟩ : apf_image).load_size > 0x2000 →
        slot2.m_type = APF_BASIC) ∧
      ((⟨false, List.replicate 0x1800 0, none, none, none⟩ : apf_image).load_size ≠ 0x1800 →
        ¬ (⟨false, List.replicate 0x1800 0, none, none, none⟩ : apf_image).load_size > 0x2000 →
        slot2.m_type = APF_STD) :=
  C5_heuristic_agreement 0 ⟨none, 0, []⟩
    ⟨false, List.replicate 0x1800 0, none, none, none⟩ rfl
    (by rw [apf_image.load_size]; norm_num)

end Mame
